import Mathlib

/-!
Verification development for the TextArea widget of the mlworkflow
repository (src/mlworkflow/bokeh_utils/textarea.ts).

The file shallowly embeds the widget. The model side is a record holding
the two properties declared by TextArea.define (value, placeholder,
each defaulting to the empty string) together with the fields inherited
from InputWidget (title, name, disabled, id). The view side represents
the DOM subtree the view owns as a list of nodes (a label node and a
textarea node) plus the inputEl field of the view.

Methods of TextAreaView become pure functions that thread the model and
the view state explicitly and return an effects record: the log entries
emitted through the host logger and an Option String slot recording a
raised exception (the source methods contain no throw, so the embedding
always leaves it none). Host-framework internals (the base classes, the
signal system, the DOM helpers) are represented abstractly: the call to
the base-class generic change hook and to the base render are recorded
as booleans, the handlers that super.connect_signals may have connected
are an arbitrary list that our render handler is appended to, and the
initialize method is embedded as the trace of calls it performs.
-/

namespace Mlworkflow

/-- Log levels of the host logging facility; change_input logs at debug. -/
inductive LogLevel where
  | debug
  | info
  | warn
  | error
deriving DecidableEq, Repr

/-- One message sent to the host logger. -/
structure LogEntry where
  level : LogLevel
  msg : String
deriving DecidableEq, Repr

/-- Model state of the TextArea widget: the two properties declared in
TextArea.initClass via define, plus the fields inherited from the
InputWidget base (title, name, disabled, id). -/
structure TextAreaModel where
  value : String
  placeholder : String
  title : String
  name : String
  disabled : Bool
  id : String
deriving DecidableEq, Repr

/-- The DOM textarea element as built by the core/dom textarea helper
inside TextAreaView.render, including its attributes, inline style,
text content, and whether the change listener has been attached. -/
structure TextareaEl where
  cssClass : String
  id : String
  name : String
  disabled : Bool
  placeholder : String
  styleMinWidth : String
  styleMinHeight : String
  content : String
  changeListenerAttached : Bool
deriving DecidableEq, Repr

/-- A DOM child node of the view element: the label built by the label
helper, or the textarea element. -/
inductive DomNode where
  | labelNode (htmlFor : String) (text : String)
  | textareaNode (t : TextareaEl)
deriving DecidableEq, Repr

/-- The part of the view the methods touch: the children of this.el and
the inputEl field. -/
structure ViewState where
  el : List DomNode
  inputEl : TextareaEl
deriving DecidableEq, Repr

/-- The string currently displayed by the DOM textarea of a view. -/
def ViewState.displayedValue (v : ViewState) : String :=
  v.inputEl.content

/-- Effects a method performs besides its returned state: log output and
a possible raised exception (none when the body runs to completion). -/
structure OpEffects where
  log : List LogEntry
  raised : Option String
deriving DecidableEq, Repr

namespace TextAreaView

/-- Result of TextAreaView.render: the (untouched) model, the rebuilt
view state, whether super.render was called, and the effects. -/
structure RenderResult where
  model : TextAreaModel
  view : ViewState
  superRenderCalled : Bool
  fx : OpEffects
deriving DecidableEq, Repr

/-- Embeds TextAreaView.render: call super.render, empty this.el, build
the label from the model id and title, append it, build the textarea
from the model fields with the fixed inline sizing and the model value
as content, attach the change listener, append it. -/
def render (m : TextAreaModel) (prev : ViewState) : RenderResult :=
  let el0 : List DomNode := []
  let labelEl := DomNode.labelNode m.id m.title
  let el1 := el0 ++ [labelEl]
  let inputEl : TextareaEl :=
    { cssClass := "bk-widget-form-input"
      id := m.id
      name := m.name
      disabled := m.disabled
      placeholder := m.placeholder
      styleMinWidth := "90%"
      styleMinHeight := "100%"
      content := m.value
      changeListenerAttached := true }
  let el2 := el1 ++ [DomNode.textareaNode inputEl]
  { model := m
    view := { prev with el := el2, inputEl := inputEl }
    superRenderCalled := true
    fx := { log := [], raised := none } }

/-- Result of TextAreaView.change_input: the updated model, the
(untouched) view, whether the base-class generic change hook was
called, and the effects. -/
structure ChangeInputResult where
  model : TextAreaModel
  view : ViewState
  superChangeInputCalled : Bool
  fx : OpEffects
deriving DecidableEq, Repr

/-- Embeds TextAreaView.change_input: read this.inputEl.value, log it at
debug level, assign it to this.model.value, call super.change_input. -/
def change_input (m : TextAreaModel) (v : ViewState) : ChangeInputResult :=
  let value := v.inputEl.content
  { model := { m with value := value }
    view := v
    superChangeInputCalled := true
    fx :=
      { log := [{ level := LogLevel.debug
                  msg := "widget/textarea: value = " ++ value }]
        raised := none } }

/-- A handler connected to the change signal of the model: either the
render handler this view connects, or an abstract handler belonging to
the host framework. -/
inductive ChangeHandler where
  | renderOnChange
  | hostHandler (f : TextAreaModel → ViewState → ViewState)

/-- Embeds TextAreaView.connect_signals: run super.connect_signals
(whatever handlers it connected come first), then connect a handler on
this.model.change that calls this.render. -/
def connect_signals (superHandlers : List ChangeHandler) : List ChangeHandler :=
  superHandlers ++ [ChangeHandler.renderOnChange]

/-- Runs one connected handler on the current model and view. -/
def runHandler (m : TextAreaModel) (v : ViewState) : ChangeHandler → ViewState
  | ChangeHandler.renderOnChange => (render m v).view
  | ChangeHandler.hostHandler f => f m v

/-- Dispatch of a change notification from the model: every connected
handler runs in order on the current model. -/
def notifyChange (m : TextAreaModel) (hs : List ChangeHandler) (v : ViewState) : ViewState :=
  hs.foldl (runHandler m) v

/-- The calls the view lifecycle methods perform, in order. -/
inductive LifecycleCall where
  | superInitCall
  | renderCall
deriving DecidableEq, Repr

/-- Embeds the init method of TextAreaView (source name with the
obvious spelling): call the base-class init with the options, then call
this.render, and return. -/
def initCalls {α : Type} (options : α) : List LifecycleCall :=
  [LifecycleCall.superInitCall, LifecycleCall.renderCall]

/-- Embeds TextAreaView.css_classes: the base-class list with the
widget form-group class appended. -/
def css_classes (superClasses : List String) : List String :=
  superClasses ++ ["bk-widget-form-group"]

end TextAreaView

namespace TextArea

/-- Attributes optionally passed to the TextArea constructor; a missing
entry falls back to the property default declared in initClass. -/
structure PartialAttrs where
  value : Option String := none
  placeholder : Option String := none

/-- The inherited InputWidget attributes, owned by the host framework. -/
structure BaseAttrs where
  title : String
  name : String
  disabled : Bool
  id : String

/-- Default of the value property, from define in initClass. -/
def defaultValue : String := ""

/-- Default of the placeholder property, from define in initClass. -/
def defaultPlaceholder : String := ""

/-- Embeds construction of a TextArea model from partial attributes:
declared properties fall back to their defaults, inherited fields come
from the host-managed base attributes. -/
def make (attrs : PartialAttrs) (base : BaseAttrs) : TextAreaModel :=
  { value := attrs.value.getD defaultValue
    placeholder := attrs.placeholder.getD defaultPlaceholder
    title := base.title
    name := base.name
    disabled := base.disabled
    id := base.id }

end TextArea

/-- Claim C1: for every string in the DOM textarea, change_input reads
that value, emits a debug-level log message containing it, assigns it
to the model value, and calls the base-class generic change hook; in
particular with content "hello" the model value becomes "hello". -/
theorem change_input_spec (m : TextAreaModel) (v : ViewState) :
    (TextAreaView.change_input m v).model.value = v.inputEl.content ∧
    (TextAreaView.change_input m v).fx.log =
      [{ level := LogLevel.debug
         msg := "widget/textarea: value = " ++ v.inputEl.content }] ∧
    (∃ a b : String,
      (TextAreaView.change_input m v).fx.log.map LogEntry.msg =
        [a ++ v.inputEl.content ++ b]) ∧
    (TextAreaView.change_input m v).superChangeInputCalled = true ∧
    (TextAreaView.change_input m
        { v with inputEl := { v.inputEl with content := "hello" } }).model.value =
      "hello" := by
  refine ⟨rfl, rfl, ⟨"widget/textarea: value = ", "", ?_⟩, rfl, rfl⟩
  simp [TextAreaView.change_input]

/-- Claim C2: render clears the existing DOM content of the view and
rebuilds it as a label carrying the model id and title followed by a
textarea whose attributes come from the model fields, whose inline
sizing is fixed, whose content is the model value, and which carries
the change listener. -/
theorem render_spec (m : TextAreaModel) (prev : ViewState) :
    (TextAreaView.render m prev).view.el =
      [DomNode.labelNode m.id m.title,
       DomNode.textareaNode (TextAreaView.render m prev).view.inputEl] ∧
    (TextAreaView.render m prev).view.inputEl =
      { cssClass := "bk-widget-form-input"
        id := m.id
        name := m.name
        disabled := m.disabled
        placeholder := m.placeholder
        styleMinWidth := "90%"
        styleMinHeight := "100%"
        content := m.value
        changeListenerAttached := true } :=
  ⟨rfl, rfl⟩

/-- Claim C3: a TextArea constructed without explicit attributes has
value and placeholder equal to the empty string. -/
theorem default_attrs (base : TextArea.BaseAttrs) :
    (TextArea.make {} base).value = "" ∧
    (TextArea.make {} base).placeholder = "" :=
  ⟨rfl, rfl⟩

/-- Claim C4: after connect_signals, dispatching a change notification
from the model leaves the view fully re-rendered from the current
model; in particular after setting the model value the rendered
textarea displays that value. -/
theorem connect_signals_rerender (superHandlers : List TextAreaView.ChangeHandler)
    (m : TextAreaModel) (v0 : ViewState) (val : String) :
    TextAreaView.notifyChange { m with value := val }
        (TextAreaView.connect_signals superHandlers) v0 =
      (TextAreaView.render { m with value := val }
        (TextAreaView.notifyChange { m with value := val } superHandlers v0)).view ∧
    (TextAreaView.notifyChange { m with value := val }
        (TextAreaView.connect_signals superHandlers) v0).displayedValue = val := by
  constructor
  · simp [TextAreaView.notifyChange, TextAreaView.connect_signals,
      TextAreaView.runHandler]
  · simp [TextAreaView.notifyChange, TextAreaView.connect_signals,
      TextAreaView.runHandler, TextAreaView.render, ViewState.displayedValue]

/-- Claim C5: at the two synchronization points the displayed value of
the DOM textarea and the model value agree: right after render the
displayed value equals the model value, and right after change_input
the model value equals the displayed value of the untouched view. -/
theorem sync_invariant (m : TextAreaModel) (v : ViewState) :
    (TextAreaView.render m v).view.displayedValue = m.value ∧
    (TextAreaView.change_input m v).model.value =
      (TextAreaView.change_input m v).view.displayedValue :=
  ⟨rfl, rfl⟩

/-- Claim C6: for every options argument, the view init method calls
the base-class init and then render, exactly once each, in that
order, before returning. -/
theorem init_renders_once {α : Type} (options : α) :
    TextAreaView.initCalls options =
      [TextAreaView.LifecycleCall.superInitCall,
       TextAreaView.LifecycleCall.renderCall] ∧
    (TextAreaView.initCalls options).count TextAreaView.LifecycleCall.renderCall = 1 :=
  ⟨rfl, by simp [TextAreaView.initCalls]⟩

/-- Claim C7: the textarea produced by render carries the disabled
attribute exactly when the model disabled flag is set: the rendered
disabled attribute equals the flag, so a true flag renders a disabled
element and a false flag renders an enabled one. -/
theorem render_disabled (m : TextAreaModel) (prev : ViewState) :
    (TextAreaView.render m prev).view.inputEl.disabled = m.disabled :=
  rfl

/-- Claim C8: neither render nor change_input has an error branch: on
every input both run to completion with no raised exception, and the
only diagnostic output in the component is the single debug-level log
line of change_input (render logs nothing). -/
theorem no_error_branch (m : TextAreaModel) (v : ViewState) :
    (TextAreaView.render m v).fx.raised = none ∧
    (TextAreaView.change_input m v).fx.raised = none ∧
    (TextAreaView.render m v).fx.log = [] ∧
    (TextAreaView.change_input m v).fx.log.map LogEntry.level = [LogLevel.debug] :=
  ⟨rfl, rfl, rfl, rfl⟩

/-- Claim C9: change_input modifies only the model value: placeholder
and the inherited fields title, name, disabled and id are unchanged for
every prior model state and every DOM textarea content. -/
theorem change_input_frame (m : TextAreaModel) (v : ViewState) :
    (TextAreaView.change_input m v).model.placeholder = m.placeholder ∧
    (TextAreaView.change_input m v).model.title = m.title ∧
    (TextAreaView.change_input m v).model.name = m.name ∧
    (TextAreaView.change_input m v).model.disabled = m.disabled ∧
    (TextAreaView.change_input m v).model.id = m.id :=
  ⟨rfl, rfl, rfl, rfl, rfl⟩

/-- Claim C10: render never mutates the model: the model returned by
render is the whole model it was given, for every model state. -/
theorem render_frame (m : TextAreaModel) (prev : ViewState) :
    (TextAreaView.render m prev).model = m :=
  rfl

end Mlworkflow
